import Mathlib

/-!
Verification of the GR00T whole-body-control teleop core against its
natural-language specification.

Shallow embedding of:
* `InspireHandDriver` (src/gr00t_wbc/control/envs/g1/utils/inspire_driver.py):
  the shared state/command mirrors, the ingestion update, and the
  `get_hand_state` / `set_hand_cmd` accessors.  Scalar motor values are
  modelled as rationals.  NumPy basic slices of one-dimensional arrays are
  views, so `get_hand_state` is modelled as returning view handles
  (base array + start offset) that are dereferenced against a driver state.
* `G1GripperInverseKinematicsSolver`
  (src/gr00t_wbc/control/teleop/solver/hand/g1_gripper_ik_solver.py):
  fingertip tensors and the per-digit curl computation, over the reals
  (the Euclidean norm requires a square root).
* `PicoHandTrackingClientStreamer`
  (src/gr00t_wbc/control/teleop/streamers/pico_hand_tracking_client_streamer.py):
  the request/reply outcome handling of `_request_data` / `get` and the
  fingertip-tensor derivation `_generate_finger_data`.
* The timestamping of the published action in the control loop
  (src/gr00t_wbc/control/main/teleop/run_teleop_policy_loop.py).
-/

namespace InspireDriver

/-- `NUM_MOTORS_PER_HAND = 6` (inspire_driver.py line 13). -/
def NUM_MOTORS_PER_HAND : Nat := 6

/-- `TOTAL_MOTORS = 12`, slots 0-5 right hand, 6-11 left hand
(inspire_driver.py line 14). -/
def TOTAL_MOTORS : Nat := 12

/-- One entry of `msg.states` read by the ingestion loop: position `q`,
velocity `dq`, estimated effort `tau_est`. -/
structure MotorState where
  q : ℚ
  dq : ℚ
  tau_est : ℚ
deriving DecidableEq

/-- The driver's in-memory mirrors: `joint_q`, `joint_dq`, `joint_tau`
(state mirror, 12 slots each) and `cmd_q` (command mirror, 12 slots).
Allocated in `__init__` (lines 51-56). -/
structure DriverState where
  joint_q : Fin 12 → ℚ
  joint_dq : Fin 12 → ℚ
  joint_tau : Fin 12 → ℚ
  cmd_q : Fin 12 → ℚ

/-- The freshly initialized driver: state mirrors `np.zeros(TOTAL_MOTORS)`,
command mirror `np.ones(TOTAL_MOTORS)` (default open/safe position),
inspire_driver.py lines 51-56. -/
def initState : DriverState :=
  { joint_q := fun _ => 0
    joint_dq := fun _ => 0
    joint_tau := fun _ => 0
    cmd_q := fun _ => 1 }

/-- Mirror slot addressed by hand side and in-hand index:
`start_idx = 6 if is_left else 0`, slot `start_idx + i`. -/
def handIdx (is_left : Bool) (i : Fin 6) : Fin 12 :=
  ⟨(if is_left then 6 else 0) + i.val, by cases is_left <;> simp <;> omega⟩

/-- One iteration of `_recv_loop` on a received frame
(inspire_driver.py lines 77-82): `count = min(len(msg.states), TOTAL_MOTORS)`,
then `joint_q[i] = msg.states[i].q` (and `dq`, `tau_est`) for `i < count`;
the remaining slots keep their previous values. -/
def recv_update (s : DriverState) (states : List MotorState) : DriverState :=
  let count := min states.length TOTAL_MOTORS
  { joint_q := fun j => if h : j.val < count then (states.get ⟨j.val, by omega⟩).q
      else s.joint_q j
    joint_dq := fun j => if h : j.val < count then (states.get ⟨j.val, by omega⟩).dq
      else s.joint_dq j
    joint_tau := fun j => if h : j.val < count then (states.get ⟨j.val, by omega⟩).tau_est
      else s.joint_tau j
    cmd_q := s.cmd_q }

/-- Which backing array of the driver a NumPy slice aliases. -/
inductive StateArray
  | jq
  | jdq
  | jtau
deriving DecidableEq

/-- A NumPy basic slice `arr[start:start+6]` of a driver mirror: a view
(base array + start offset), not a copy of the values. -/
structure HandView where
  arr : StateArray
  is_left : Bool
deriving DecidableEq

/-- Dereference a view against a driver state: element `i` of the slice
`arr[start:start+6]` is the backing array's current slot `start + i`. -/
def readView (s : DriverState) (v : HandView) (i : Fin 6) : ℚ :=
  match v.arr with
  | StateArray.jq => s.joint_q (handIdx v.is_left i)
  | StateArray.jdq => s.joint_dq (handIdx v.is_left i)
  | StateArray.jtau => s.joint_tau (handIdx v.is_left i)

/-- `get_hand_state(is_left)` (inspire_driver.py lines 100-108): returns the
triple of slices `(joint_q[s:e], joint_dq[s:e], joint_tau[s:e])`.  A NumPy
basic slice of a 1-D array is a view onto the backing storage, so the call
returns three view handles; the values a caller observes through them are
those of the mirror at dereference time. -/
def get_hand_state (is_left : Bool) : HandView × HandView × HandView :=
  (⟨StateArray.jq, is_left⟩, ⟨StateArray.jdq, is_left⟩, ⟨StateArray.jtau, is_left⟩)

/-- `set_hand_cmd(is_left, q_cmd)` (inspire_driver.py lines 110-118):
`limit = min(len(q_cmd), 6)`; under the command lock,
`cmd_q[start_idx + i] = q_cmd[i]` for `i < limit`. -/
def set_hand_cmd (s : DriverState) (is_left : Bool) (q_cmd : List ℚ) : DriverState :=
  let start := if is_left then 6 else 0
  { s with cmd_q := fun j =>
      if h : start ≤ j.val ∧ j.val < start + min q_cmd.length 6 then
        q_cmd.get ⟨j.val - start, by omega⟩
      else s.cmd_q j }

end InspireDriver

namespace TeleopLoop

/-- `time_to_get_to_initial_pose = 2` seconds
(run_teleop_policy_loop.py line 64). -/
def time_to_get_to_initial_pose : ℚ := 2

/-- The timing fields the control loop attaches to the published action
(run_teleop_policy_loop.py lines 77-84): `timestamp = t_now`;
`target_time = t_now + time_to_get_to_initial_pose` on iteration 0,
`t_now + 1/teleop_frequency` afterwards.  Returns
`(timestamp, target_time)`. -/
def stampedTimes (iteration : Nat) (t_now teleop_frequency : ℚ) : ℚ × ℚ :=
  (t_now,
    if iteration = 0 then t_now + time_to_get_to_initial_pose
    else t_now + 1 / teleop_frequency)

end TeleopLoop

namespace GripperSolver

/-- A per-hand fingertip tensor `finger_data["position"]`: 25 homogeneous
4x4 transforms. -/
abbrev FingerTensor := Fin 25 → Fin 4 → Fin 4 → ℝ

/-- `np.allclose(fingertips, 0)` with NumPy defaults
(`rtol = 1e-5`, `atol = 1e-8`): against a zero reference this is
`|x| <= atol + rtol * 0 = 1e-8` for every entry. -/
def allclose0 (fd : FingerTensor) : Prop :=
  ∀ i j k, |fd i j k| ≤ (1e-8 : ℝ)

/-- `positions[i] = fingertips[i][:3, 3]` (g1_gripper_ik_solver.py line 30):
the translation column of the i-th transform. -/
def pos (fd : FingerTensor) (i : Fin 25) : Fin 3 → ℝ :=
  fun k => fd i k.castSucc 3

/-- `np.linalg.norm(tip_pos - wrist_pos)`: the Euclidean norm on ℝ³. -/
noncomputable def dist3 (a b : Fin 3 → ℝ) : ℝ :=
  Real.sqrt ((a 0 - b 0) ^ 2 + (a 1 - b 1) ^ 2 + (a 2 - b 2) ^ 2)

/-- `open_thresholds = {"thumb": 0.09, "fingers": 0.10}`
(g1_gripper_ik_solver.py line 11). -/
noncomputable def open_thresholds (is_thumb : Bool) : ℝ :=
  if is_thumb then 0.09 else 0.10

/-- `close_thresholds = {"thumb": 0.05, "fingers": 0.06}`
(g1_gripper_ik_solver.py line 14). -/
noncomputable def close_thresholds (is_thumb : Bool) : ℝ :=
  if is_thumb then 0.05 else 0.06

/-- `np.clip(val, 0.0, 1.0)`. -/
noncomputable def clip01 (x : ℝ) : ℝ := min (max x 0) 1

/-- `get_curl(tip_idx, is_thumb)` (g1_gripper_ik_solver.py lines 33-46):
distance from the tip to the wrist landmark (index 0), linear ratio between
the close and open thresholds, gain 1.1, clipped to [0, 1]. -/
noncomputable def get_curl (fd : FingerTensor) (tip_idx : Fin 25) (is_thumb : Bool) : ℝ :=
  let dist := dist3 (pos fd tip_idx) (pos fd 0)
  let t_open := open_thresholds is_thumb
  let t_close := close_thresholds is_thumb
  clip01 ((dist - t_close) / (t_open - t_close) * 1.1)

open Classical in
/-- `G1GripperInverseKinematicsSolver.__call__` (g1_gripper_ik_solver.py
lines 19-67).  `q_desired = np.zeros(7)`; on an all-close-to-zero tensor,
`q_desired[:6] = 1.0` and return; otherwise channels 0-4 are the pinky,
ring, middle, index and thumb curls at `tip_indices = [4, 9, 14, 19, 24]`
(thumb uses the thumb thresholds), channel 5 is `1.0` (thumb rotation kept
open) and channel 6 keeps its zero initialization. -/
noncomputable def solverCall (fd : FingerTensor) : Fin 7 → ℝ :=
  if allclose0 fd then ![1, 1, 1, 1, 1, 1, 0]
  else
    ![get_curl fd 24 false, get_curl fd 19 false, get_curl fd 14 false,
      get_curl fd 9 false, get_curl fd 4 true, 1, 0]

end GripperSolver

namespace PicoStreamer

/-- One entry of a `hand_joints` array: `[x, y, z, qx, qy, qz, qw]`. -/
abbrev JointData := Fin 7 → ℝ

/-- `R_HEADSET_TO_WORLD` (pico_hand_tracking_client_streamer.py
lines 15-21). -/
def R_HEADSET_TO_WORLD : Matrix (Fin 3) (Fin 3) ℝ :=
  !![0, 0, -1; -1, 0, 0; 0, 1, 0]

/-- The position part `v[:3]` of a 7-vector `[x, y, z, qx, qy, qz, qw]`. -/
def posPart (v : Fin 7 → ℝ) : Fin 3 → ℝ := fun k => v ⟨k.val, by omega⟩

/-- The quaternion part `v[3:]` of a 7-vector `[x, y, z, qx, qy, qz, qw]`. -/
def quatPart (v : Fin 7 → ℝ) : Fin 4 → ℝ := fun k => v ⟨k.val + 3, by omega⟩

open Classical in
/-- The zero-norm quaternion guard (pico_hand_tracking_client_streamer.py
lines 109-110 and 130-131): `np.allclose(q, 0)` (NumPy defaults against a
zero reference: every entry within `atol = 1e-8`) replaces the quaternion
by the identity `[0, 0, 0, 1]`. -/
noncomputable def safeQuat (q : Fin 4 → ℝ) : Fin 4 → ℝ :=
  if ∀ i, |q i| ≤ (1e-8 : ℝ) then ![0, 0, 0, 1] else q

/-- `scipy.spatial.transform.Rotation.from_quat(q).as_matrix()` for a
nonzero quaternion `(x, y, z, w)`: the rotation matrix of the normalized
quaternion, written rationally via division by the squared norm. -/
noncomputable def quat_as_matrix (q : Fin 4 → ℝ) : Matrix (Fin 3) (Fin 3) ℝ :=
  let x := q 0
  let y := q 1
  let z := q 2
  let w := q 3
  let n := x ^ 2 + y ^ 2 + z ^ 2 + w ^ 2
  (1 / n) •
    !![w ^ 2 + x ^ 2 - y ^ 2 - z ^ 2, 2 * (x * y - z * w), 2 * (x * z + y * w);
       2 * (x * y + z * w), w ^ 2 - x ^ 2 + y ^ 2 - z ^ 2, 2 * (y * z - x * w);
       2 * (x * z - y * w), 2 * (y * z + x * w), w ^ 2 - x ^ 2 - y ^ 2 + z ^ 2]

/-- `np.arctan2 y x`, modelled as the complex argument of `x + y i`. -/
noncomputable def atan2 (y x : ℝ) : ℝ := Complex.arg ⟨x, y⟩

/-- `R.from_matrix(h_rot).as_euler("xyz")[2]` in the generic
(non-gimbal-lock) case: for extrinsic x-y-z Euler angles the third angle of
a rotation matrix is `atan2(R[1,0], R[0,0])`. -/
noncomputable def yawOf (m : Matrix (Fin 3) (Fin 3) ℝ) : ℝ := atan2 (m 1 0) (m 0 0)

/-- `R.from_euler("z", -yaw).as_matrix()`: rotation by `-yaw` about Z. -/
noncomputable def invYawRot (yaw : ℝ) : Matrix (Fin 3) (Fin 3) ℝ :=
  !![Real.cos yaw, Real.sin yaw, 0;
     -Real.sin yaw, Real.cos yaw, 0;
     0, 0, 1]

/-- A homogeneous 4x4 transform written into a row of `fingertips`
(pico_hand_tracking_client_streamer.py lines 145-147): `np.eye(4)` with the
upper-left 3x3 block replaced by `rot` and the top of the last column by
`t`. -/
def hom (rot : Matrix (Fin 3) (Fin 3) ℝ) (t : Fin 3 → ℝ) : Fin 4 → Fin 4 → ℝ :=
  fun r c =>
    if hr : r.val < 3 then
      if hc : c.val < 3 then rot ⟨r.val, hr⟩ ⟨c.val, hc⟩ else t ⟨r.val, hr⟩
    else if c.val = 3 then 1 else 0

/-- `PicoHandTrackingClientStreamer._generate_finger_data`
(pico_hand_tracking_client_streamer.py lines 86-149).  If `hand_joints` is
`None` or has fewer than 25 joints, the all-zero `(25, 4, 4)` tensor is
returned.  Otherwise each joint's device-frame pose is permuted into the
Z-up world frame by `R_HEADSET_TO_WORLD`, translated relative to the
headset position, and rotated by the inverse of the headset's yaw; slots at
indices `>= min(len(hand_joints), 25)` keep their zero initialization. -/
noncomputable def generate_finger_data (hand_joints : Option (List JointData))
    (headset_pose : Fin 7 → ℝ) : Fin 25 → Fin 4 → Fin 4 → ℝ :=
  match hand_joints with
  | none => fun _ _ _ => 0
  | some js =>
    if js.length < 25 then fun _ _ _ => 0
    else
      let h_pos := R_HEADSET_TO_WORLD.mulVec (posPart headset_pose)
      let h_rot := R_HEADSET_TO_WORLD * quat_as_matrix (safeQuat (quatPart headset_pose)) *
        R_HEADSET_TO_WORLD.transpose
      let iyr := invYawRot (yawOf h_rot)
      fun i r c =>
        if h : i.val < min js.length 25 then
          let jd := js.get ⟨i.val, by omega⟩
          let j_pos := R_HEADSET_TO_WORLD.mulVec (posPart jd)
          let j_rot := R_HEADSET_TO_WORLD * quat_as_matrix (safeQuat (quatPart jd)) *
            R_HEADSET_TO_WORLD.transpose
          hom (iyr * j_rot) (iyr.mulVec (j_pos - h_pos)) r c
        else 0

/-- A successfully deserialized non-error server reply: the server's
snapshot dict always carries a `headset_pose` and per-hand joint arrays
that may be `None` (pico_hand_tracking_server.py lines 64-86). -/
structure PicoServerData where
  headset_pose : Fin 7 → ℝ
  left_hand_joints : Option (List JointData)
  right_hand_joints : Option (List JointData)

/-- A deserialized reply message: either the error payload
`{error, timestamp}` sent by the server on a capture failure, or a
snapshot. -/
inductive ServerReply
  | errorPayload (msg : String) (timestamp : ℝ)
  | snapshot (d : PicoServerData)

/-- Outcome of one request/reply exchange as observed by `_request_data`:
`zmq.Again` on `recv` (timeout), any other transport exception raised by
`send`/`recv`, a failure of `pickle.loads` on the received bytes, or a
successfully deserialized reply. -/
inductive ExchangeResult
  | timeout
  | transportError
  | deserializeError
  | reply (r : ServerReply)

/-- `PicoHandTrackingClientStreamer._request_data`
(pico_hand_tracking_client_streamer.py lines 56-84) for a started client:
a timeout (`zmq.Again`), any transport error, a deserialization failure
(both caught by the generic handler), and an `{"error": ...}` payload all
yield `None`; a snapshot yields the data dict. -/
def request_data : ExchangeResult → Option PicoServerData
  | ExchangeResult.timeout => none
  | ExchangeResult.transportError => none
  | ExchangeResult.deserializeError => none
  | ExchangeResult.reply (ServerReply.errorPayload _ _) => none
  | ExchangeResult.reply (ServerReply.snapshot d) => some d

/-- The fields of `StreamerOutput` populated by the client streamer:
`ik_data["left_fingers"]["position"]`, `ik_data["right_fingers"]["position"]`
and `source`; `control_data`, `teleop_data`, `data_collection_data` are
always empty dicts. -/
structure StreamerOut where
  leftPos : Fin 25 → Fin 4 → Fin 4 → ℝ
  rightPos : Fin 25 → Fin 4 → Fin 4 → ℝ
  source : String

/-- `PicoHandTrackingClientStreamer.get`
(pico_hand_tracking_client_streamer.py lines 151-192), parameterized by
whether `start_streaming` has been called (`socket is not None`) and by the
exchange outcome.  An unstarted client raises `RuntimeError` (modelled as
`Except.error`); otherwise the call never raises: a failed exchange yields
all-zero `(25, 4, 4)` tensors for both hands, a snapshot is converted by
`_generate_finger_data`. -/
noncomputable def streamerGet (started : Bool) (x : ExchangeResult) :
    Except String StreamerOut :=
  if !started then
    Except.error "PicoHandTrackingClientStreamer not started. Call start_streaming() first."
  else
    Except.ok <|
      match request_data x with
      | none =>
        { leftPos := fun _ _ _ => 0
          rightPos := fun _ _ _ => 0
          source := "pico_hand_tracking" }
      | some d =>
        { leftPos := generate_finger_data d.left_hand_joints d.headset_pose
          rightPos := generate_finger_data d.right_hand_joints d.headset_pose
          source := "pico_hand_tracking" }

end PicoStreamer

open InspireDriver TeleopLoop GripperSolver PicoStreamer

/-- C1 (counterexample): the arrays returned by `get_hand_state` are NOT a
copy of the state mirror at call time.  Concretely: the position array
returned for the right hand at the zero-initialized state reads `0` at
index 0, but after the ingestion loop processes one frame carrying
`q = 5` for motor 0, the very same returned array reads `5` — a subsequent
mirror update does change the values previously returned to the caller,
because NumPy basic slices are views. -/
theorem get_hand_state_not_copy_counterexample :
    readView initState (get_hand_state false).1 0 = 0 ∧
    readView (recv_update initState [⟨5, 1, 2⟩]) (get_hand_state false).1 0 = 5 := by
  constructor <;> rfl

/-- C1 (amended): `get_hand_state` returns live views (aliases) of the
state mirror, not copies: for any slot of the addressed hand that a
subsequently ingested frame overwrites, dereferencing the previously
returned position/velocity/effort arrays yields that frame's new value
(`q`, `dq`, `tau_est`), not the value held at call time. -/
theorem get_hand_state_returns_live_views (s : DriverState) (states : List MotorState)
    (is_left : Bool) (i : Fin 6)
    (h : (handIdx is_left i).val < min states.length TOTAL_MOTORS) :
    readView (recv_update s states) (get_hand_state is_left).1 i
      = (states.get ⟨(handIdx is_left i).val, by
          have := Nat.lt_of_lt_of_le h (Nat.min_le_left _ _); exact this⟩).q ∧
    readView (recv_update s states) (get_hand_state is_left).2.1 i
      = (states.get ⟨(handIdx is_left i).val, by
          have := Nat.lt_of_lt_of_le h (Nat.min_le_left _ _); exact this⟩).dq ∧
    readView (recv_update s states) (get_hand_state is_left).2.2 i
      = (states.get ⟨(handIdx is_left i).val, by
          have := Nat.lt_of_lt_of_le h (Nat.min_le_left _ _); exact this⟩).tau_est := by
  refine ⟨?_, ?_, ?_⟩ <;>
    simp only [readView, get_hand_state, recv_update, TOTAL_MOTORS] <;>
    rw [dif_pos (by simpa [TOTAL_MOTORS] using h)]

/-- C1 (witness for the amended theorem): at the zero-initialized state,
after ingesting the one-motor frame `(q, dq, tau) = (5, 1, 2)`, the arrays
previously returned for the right hand read `(5, 1, 2)` at index 0. -/
theorem get_hand_state_returns_live_views_witness :
    readView (recv_update initState [⟨5, 1, 2⟩]) (get_hand_state false).1 0 = 5 ∧
    readView (recv_update initState [⟨5, 1, 2⟩]) (get_hand_state false).2.1 0 = 1 ∧
    readView (recv_update initState [⟨5, 1, 2⟩]) (get_hand_state false).2.2 0 = 2 :=
  get_hand_state_returns_live_views initState [⟨5, 1, 2⟩] false 0 (by decide)

/-- C6: `set_hand_cmd` writes exactly the first `min(len(q_cmd), 6)`
entries of the command vector into the addressed hand's command slots
(slot `start + i` receives `q_cmd[i]`); every other slot of the command
mirror is untouched, so entries beyond the sub-unit's 6 actuators are
silently ignored and the call is total. -/
theorem set_hand_cmd_writes_exact_entries (s : DriverState) (is_left : Bool)
    (q_cmd : List ℚ) :
    (∀ i : Fin 6, ∀ hi : i.val < min q_cmd.length 6,
      (set_hand_cmd s is_left q_cmd).cmd_q (handIdx is_left i)
        = q_cmd.get ⟨i.val, Nat.lt_of_lt_of_le hi (Nat.min_le_left _ _)⟩) ∧
    (∀ j : Fin 12, (∀ i : Fin 6, i.val < min q_cmd.length 6 → j ≠ handIdx is_left i) →
      (set_hand_cmd s is_left q_cmd).cmd_q j = s.cmd_q j) := by
  constructor
  · intro i hi
    simp only [set_hand_cmd, handIdx]
    rw [dif_pos (by cases is_left <;> simp <;> omega)]
    congr 1
    ext
    cases is_left <;> simp
  · intro j hj
    simp only [set_hand_cmd]
    rw [dif_neg]
    intro hcond
    obtain ⟨h1, h2⟩ := hcond
    have hlt : j.val - (if is_left then 6 else 0) < 6 := by
      cases is_left <;> simp_all <;> omega
    refine hj ⟨j.val - (if is_left then 6 else 0), hlt⟩ (by cases is_left <;> simp_all <;> omega) ?_
    simp only [handIdx]
    ext
    cases is_left <;> simp_all <;> omega

/-- C6 (witness): writing the 8-entry vector `[10,11,12,13,14,15,16,17]` to
the right hand of the fresh driver stores `10` in slot 0 and `15` in
slot 5, and leaves slot 6 (left hand) at its default `1`. -/
theorem set_hand_cmd_writes_exact_entries_witness :
    (set_hand_cmd initState false [10, 11, 12, 13, 14, 15, 16, 17]).cmd_q
        (handIdx false 0) = 10 ∧
    (set_hand_cmd initState false [10, 11, 12, 13, 14, 15, 16, 17]).cmd_q
        (handIdx false 5) = 15 ∧
    (set_hand_cmd initState false [10, 11, 12, 13, 14, 15, 16, 17]).cmd_q
        (handIdx true 0) = initState.cmd_q (handIdx true 0) :=
  ⟨(set_hand_cmd_writes_exact_entries initState false _).1 0 (by decide),
   (set_hand_cmd_writes_exact_entries initState false _).1 5 (by decide),
   (set_hand_cmd_writes_exact_entries initState false _).2 (handIdx true 0)
     (by decide)⟩

/-- C9: `set_hand_cmd` leaves the 6 command slots of the other hand
unchanged, and leaves the addressed hand's slots at in-hand indices
`>= len(q_cmd)` unchanged: a short command vector updates only its own
prefix. -/
theorem set_hand_cmd_frame (s : DriverState) (is_left : Bool) (q_cmd : List ℚ) :
    (∀ j : Fin 6,
      (set_hand_cmd s is_left q_cmd).cmd_q (handIdx (!is_left) j)
        = s.cmd_q (handIdx (!is_left) j)) ∧
    (∀ j : Fin 6, q_cmd.length ≤ j.val →
      (set_hand_cmd s is_left q_cmd).cmd_q (handIdx is_left j)
        = s.cmd_q (handIdx is_left j)) := by
  constructor
  · intro j
    simp only [set_hand_cmd, handIdx]
    rw [dif_neg]
    intro hcond
    cases is_left <;> simp_all <;> omega
  · intro j hj
    simp only [set_hand_cmd, handIdx]
    rw [dif_neg]
    intro hcond
    cases is_left <;> simp_all <;> omega

/-- C9 (witness): writing the single-entry vector `[7]` to the left hand of
the fresh driver leaves right-hand slot 0 and left-hand slot 1 at their
default `1`. -/
theorem set_hand_cmd_frame_witness :
    (set_hand_cmd initState true [7]).cmd_q (handIdx (!true) 0)
      = initState.cmd_q (handIdx (!true) 0) ∧
    (set_hand_cmd initState true [7]).cmd_q (handIdx true 1)
      = initState.cmd_q (handIdx true 1) :=
  ⟨(set_hand_cmd_frame initState true [7]).1 0,
   (set_hand_cmd_frame initState true [7]).2 1 (by decide)⟩

/-- `clip01` lands in the unit interval (left bound). -/
theorem clip01_nonneg (x : ℝ) : 0 ≤ clip01 x :=
  le_min (le_max_right x 0) zero_le_one

/-- `clip01` lands in the unit interval (right bound). -/
theorem clip01_le_one (x : ℝ) : clip01 x ≤ 1 :=
  min_le_right _ 1

/-- `clip01` is monotone. -/
theorem clip01_mono {x y : ℝ} (h : x ≤ y) : clip01 x ≤ clip01 y :=
  min_le_min (max_le_max h le_rfl) le_rfl

/-- C2: on a fingertip tensor that is numerically all-zero (every entry
within NumPy's `allclose` tolerance of 0), the solver returns the fail-safe
command immediately: each of the first five (finger) channels equals 1.0,
independently of the threshold calibration, which the zero branch never
reads. -/
theorem solverCall_allzero_fingers_open (fd : FingerTensor) (h : allclose0 fd) :
    ∀ i : Fin 7, i.val < 5 → solverCall fd i = 1 := by
  intro i hi
  unfold solverCall
  rw [if_pos h]
  fin_cases i <;> simp_all

/-- C2 (witness): on the literally zero tensor, finger channels 0 and 4 of
the solver output are 1. -/
theorem solverCall_allzero_fingers_open_witness :
    solverCall (fun _ _ _ => 0) 0 = 1 ∧ solverCall (fun _ _ _ => 0) 4 = 1 :=
  ⟨solverCall_allzero_fingers_open (fun _ _ _ => 0)
      (fun _ _ _ => by norm_num) 0 (by decide),
   solverCall_allzero_fingers_open (fun _ _ _ => 0)
      (fun _ _ _ => by norm_num) 4 (by decide)⟩

/-- C3: every channel of the solver's output lies in [0, 1], for every
input tensor: the zero branch emits only 1s and a trailing 0, and in the
tracking branch the five curls are clipped to [0, 1] while channels 5 and 6
are the constants 1 and 0. -/
theorem solverCall_channels_in_unit_interval (fd : FingerTensor) (i : Fin 7) :
    0 ≤ solverCall fd i ∧ solverCall fd i ≤ 1 := by
  unfold solverCall
  split
  · fin_cases i <;> norm_num
  · fin_cases i <;>
      simp only [get_curl, Matrix.cons_val_zero, Matrix.cons_val_one, Matrix.head_cons,
        Matrix.cons_val_succ] <;>
      first
        | exact ⟨clip01_nonneg _, clip01_le_one _⟩
        | norm_num

/-- C10: for every input tensor, the solver output's thumb-rotation
channel (index 5) is 1.0 and its last auxiliary channel (index 6) is 0.0:
the zero branch writes `q_desired[:6] = 1.0` leaving index 6 at its zero
initialization, and the tracking branch sets index 5 to 1.0 and never
touches index 6. -/
theorem solverCall_aux_channels (fd : FingerTensor) :
    solverCall fd 5 = 1 ∧ solverCall fd 6 = 0 := by
  unfold solverCall
  split <;> exact ⟨rfl, rfl⟩

/-- C4: holding the thresholds fixed, a digit's curl is monotonically
non-decreasing in the Euclidean distance between that digit's fingertip
and the wrist landmark: the affine ratio has positive denominator
(`open - close = 0.04` for both calibrations), the 1.1 gain is positive,
and clipping preserves order. -/
theorem get_curl_monotone_in_distance (fd1 fd2 : FingerTensor) (tip_idx : Fin 25)
    (is_thumb : Bool)
    (h : dist3 (pos fd1 tip_idx) (pos fd1 0) ≤ dist3 (pos fd2 tip_idx) (pos fd2 0)) :
    get_curl fd1 tip_idx is_thumb ≤ get_curl fd2 tip_idx is_thumb := by
  unfold get_curl
  apply clip01_mono
  have hct : (0 : ℝ) < open_thresholds is_thumb - close_thresholds is_thumb := by
    cases is_thumb <;> norm_num [open_thresholds, close_thresholds]
  gcongr

/-- C4 (witness): moving the pinky tip from the wrist position (distance 0,
all-zero tensor) to one metre away along x does not decrease its curl. -/
theorem get_curl_monotone_in_distance_witness :
    get_curl (fun _ _ _ => 0) 24 false ≤
      get_curl (fun i j k => if i = 24 ∧ j = 0 ∧ k = 3 then 1 else 0) 24 false :=
  get_curl_monotone_in_distance (fun _ _ _ => 0) _ 24 false (by
    have h0 : dist3 (pos (fun _ _ _ => 0) 24) (pos (fun _ _ _ => 0) 0) = 0 := by
      norm_num [dist3, pos, Real.sqrt_zero]
    rw [h0]
    exact Real.sqrt_nonneg _)

/-- C8: for every hand-joint input with fewer than 25 joints — including
the `None` sent by the server when tracking is inactive — the derived
fingertip pose tensor is exactly the all-zero `(25, 4, 4)` tensor,
whatever the headset pose. -/
theorem generate_finger_data_short_input_zero (hand_joints : Option (List JointData))
    (headset_pose : Fin 7 → ℝ)
    (h : hand_joints = none ∨ ∃ js, hand_joints = some js ∧ js.length < 25) :
    generate_finger_data hand_joints headset_pose = fun _ _ _ => 0 := by
  rcases h with rfl | ⟨js, rfl, hlen⟩
  · rfl
  · simp [generate_finger_data, hlen]

/-- C8 (witness): both a `None` joint array and a 24-joint array yield the
all-zero tensor. -/
theorem generate_finger_data_short_input_zero_witness :
    generate_finger_data none (fun _ => 0) = (fun _ _ _ => 0) ∧
    generate_finger_data (some (List.replicate 24 (fun _ => 0))) (fun _ => 0)
      = fun _ _ _ => 0 :=
  ⟨generate_finger_data_short_input_zero none (fun _ => 0) (Or.inl rfl),
   generate_finger_data_short_input_zero (some (List.replicate 24 (fun _ => 0)))
     (fun _ => 0) (Or.inr ⟨_, rfl, by simp⟩)⟩

/-- C5: for every failure of the request/response exchange — a receive
timeout, a transport error, or a deserialization error — the started relay
client's `get` does not raise (returns `Except.ok`) and yields the output
whose left and right fingertip tensors are both the all-zero `(25, 4, 4)`
tensor. -/
theorem streamerGet_failure_all_zero (x : ExchangeResult)
    (h : x = ExchangeResult.timeout ∨ x = ExchangeResult.transportError ∨
      x = ExchangeResult.deserializeError) :
    streamerGet true x =
      Except.ok
        { leftPos := fun _ _ _ => 0
          rightPos := fun _ _ _ => 0
          source := "pico_hand_tracking" } := by
  rcases h with rfl | rfl | rfl <;> rfl

/-- C5 (witness): the timeout outcome yields the all-zero output without
raising. -/
theorem streamerGet_failure_all_zero_witness :
    streamerGet true ExchangeResult.timeout =
      Except.ok
        { leftPos := fun _ _ _ => 0
          rightPos := fun _ _ _ => 0
          source := "pico_hand_tracking" } :=
  streamerGet_failure_all_zero ExchangeResult.timeout (Or.inl rfl)

/-- C7: in the published action, `target_time - timestamp` equals the
warm-up duration (2 seconds) on iteration 0 and `1 / teleop_frequency` on
every later iteration. -/
theorem stampedTimes_warmup_gap (iteration : Nat) (t_now freq : ℚ) :
    ((stampedTimes 0 t_now freq).2 - (stampedTimes 0 t_now freq).1 = 2) ∧
    (iteration ≠ 0 →
      (stampedTimes iteration t_now freq).2 - (stampedTimes iteration t_now freq).1
        = 1 / freq) := by
  constructor
  · simp [stampedTimes, time_to_get_to_initial_pose]
  · intro h
    simp [stampedTimes, time_to_get_to_initial_pose, h]

/-- C7 (witness): at 50 Hz with acquisition time 10, iteration 0 publishes
a 2-second completion window and iteration 1 a `1/50`-second window. -/
theorem stampedTimes_warmup_gap_witness :
    ((stampedTimes 0 10 50).2 - (stampedTimes 0 10 50).1 = 2) ∧
    ((stampedTimes 1 10 50).2 - (stampedTimes 1 10 50).1 = 1 / 50) :=
  ⟨(stampedTimes_warmup_gap 1 10 50).1,
   (stampedTimes_warmup_gap 1 10 50).2 (by decide)⟩
